import Mathlib

/-!
Shallow embedding of the pixi-sound playback engine core, translated from
`src/Sound.ts` (the `Sound` asset class) and `SoundContext.ts` (the shared
mixing context).  Fractional audio quantities (volume, gain, times, speeds)
are modelled as rationals; the claims under verification only store and
compare these values, never perform floating-point arithmetic on them.
Asynchronous callbacks (decode completion, promise settlement) are modelled
by explicit result values: an operation that schedules asynchronous work
returns the action it dispatched, and the later callback is a separate
function applied to the delivered result.
-/

set_option autoImplicit false

namespace PixiSound

/-- Sprite data: the fields stored per named sprite and read back by
`Sound.play` as `sprite.start`, `sprite.end`, `sprite.speed`
(`SoundSprite` stores exactly the `SoundSpriteData` it was created with;
the speed override is optional). `end` is a Lean keyword, hence `end_`. -/
structure SoundSpriteData where
  start : ℚ
  end_ : ℚ
  speed : Option ℚ
deriving DecidableEq

/-- `PlayOptions` after the `Object.assign` defaulting at the top of
`Sound.play` (`complete: null, loaded: null, sprite: null, start: 0,
fadeIn: 0, fadeOut: 0`).  `end`, `speed` and `loop` have no default and
stay `undefined` (`none`) when not supplied.  The `complete` and `loaded`
callbacks are modelled by presence flags. -/
structure PlayOptions where
  start : ℚ := 0
  end_ : Option ℚ := none
  speed : Option ℚ := none
  loop : Option Bool := none
  fadeIn : ℚ := 0
  fadeOut : ℚ := 0
  sprite : Option String := none
  hasComplete : Bool := false
  hasLoaded : Bool := false
deriving DecidableEq

/-- One playback instance, as spawned by `Sound.play`:
`SoundInstance.create(this)` followed by
`instance.play(options.start, options.end, options.speed, options.loop,
options.fadeIn, options.fadeOut)`.  The `id` stands for the reference
identity of the JavaScript object (fresh per spawn); the remaining fields
record the arguments the instance was started with, plus its `paused`
flag. -/
structure SoundInstance where
  id : Nat
  start : ℚ
  end_ : Option ℚ
  speed : Option ℚ
  loop : Option Bool
  fadeIn : ℚ
  fadeOut : ℚ
  paused : Bool
deriving DecidableEq

/-- State of one `Sound` asset (fields of the `Sound` class in
`Sound.ts`).  `gainValue` is `this._nodes.gain.gain.value`; `hasBuffer`
is the presence of `this._source.buffer`; `srcBuffer` is the presence of
the raw `ArrayBuffer`; `nextId` generates fresh instance identities
(reference identity of newly constructed `SoundInstance` objects);
`preloadCount` is ghost instrumentation counting how many times
`_beginPreload` has dispatched a byte acquisition or decode.
`block` is not declared in `Sound.ts` at all: the repository test suite
and demo assign it as an expando property (`sound.block = true`), so it
is carried here as a field that no method of the class ever reads. -/
structure Sound where
  isLoaded : Bool
  isPlaying : Bool
  autoPlay : Bool
  singleInstance : Bool
  block : Bool
  preload : Bool
  src : Option String
  srcBuffer : Bool
  useXHR : Bool
  volume : ℚ
  gainValue : ℚ
  loop : Bool
  speed : ℚ
  sprites : List (String × SoundSpriteData)
  autoPlayOptions : Option PlayOptions
  instances : List SoundInstance
  nextId : Nat
  preloadCount : Nat
  hasBuffer : Bool
deriving DecidableEq

/-- Constructor options after the `Object.assign` defaulting in the
`Sound` constructor (`autoPlay: false, singleInstance: false, src: null,
srcBuffer: null, preload: false, volume: 1, speed: 1, complete: null,
loaded: null, loop: false, useXHR: true`).  Callbacks are modelled by
presence flags, the raw buffer by a presence bit. -/
structure Options where
  autoPlay : Bool := false
  singleInstance : Bool := false
  src : Option String := none
  srcBuffer : Bool := false
  preload : Bool := false
  volume : ℚ := 1
  speed : ℚ := 1
  hasComplete : Bool := false
  hasLoaded : Bool := false
  loop : Bool := false
  useXHR : Bool := true
  sprites : List (String × SoundSpriteData) := []
deriving DecidableEq

/-- JavaScript property assignment `table[key] = sprite` on the sprite
table: replace the binding if the key is present, otherwise append it. -/
def setSpriteEntry : List (String × SoundSpriteData) → String → SoundSpriteData →
    List (String × SoundSpriteData)
  | [], key, d => [(key, d)]
  | (k, v) :: rest, key, d =>
    if k = key then (key, d) :: rest else (k, v) :: setSpriteEntry rest key d

/-- The single-key overload of `Sound.addSprites(key, data)`:
`console.assert(!this._sprites[source], ...)` (which logs on failure but
does not throw), then unconditionally `this._sprites[source] = sprite`.
The returned `Bool` reports whether the assertion failed, i.e. whether
the key was already taken. -/
def Sound.addSprites (s : Sound) (key : String) (d : SoundSpriteData) :
    Sound × Bool :=
  ({ s with sprites := setSpriteEntry s.sprites key d },
   (s.sprites.lookup key).isSome)

/-- What `_beginPreload` dispatches: `_loadUrl` (XHR byte acquisition),
`_loadPath` (filesystem byte acquisition), `_decode` on the in-memory
buffer, the synchronous error callback
`callback(new Error("sound.src or sound.srcBuffer must be set"))`,
or `console.error` when no callback was supplied. -/
inductive PreloadAction
  | loadUrl
  | loadPath
  | decodeBuffer
  | callbackError
  | logError
deriving DecidableEq

/-- Whether the action invokes the external byte-acquisition collaborator
(XHR or filesystem read). -/
def PreloadAction.acquiresBytes : PreloadAction → Bool
  | loadUrl => true
  | loadPath => true
  | _ => false

/-- Whether the action starts a load pipeline (byte acquisition or decode),
as opposed to failing synchronously. -/
def PreloadAction.startsLoad : PreloadAction → Bool
  | callbackError => false
  | logError => false
  | _ => true

/-- The dispatch decision of `Sound._beginPreload(callback)`: branch on
`this.src` (truthy string), then `this.srcBuffer`, then the presence of
the callback. -/
def Sound.preloadAction (s : Sound) (hasCallback : Bool) : PreloadAction :=
  if s.src.isSome then (if s.useXHR then .loadUrl else .loadPath)
  else if s.srcBuffer then .decodeBuffer
  else if hasCallback then .callbackError
  else .logError

/-- `Sound._beginPreload(callback)`: perform the dispatched action;
`preloadCount` is bumped exactly when a load pipeline (byte
acquisition or decode) is dispatched. -/
def Sound.beginPreload (s : Sound) (hasCallback : Bool) : Sound × PreloadAction :=
  (if (s.preloadAction hasCallback).startsLoad then
     { s with preloadCount := s.preloadCount + 1 }
   else s,
   s.preloadAction hasCallback)

/-- `Sound` constructor body after option defaulting: field assignments in
source order (`this.preload = options.preload || this.autoPlay`, the
volume setter writing both `_volume` and the gain node, sprite table
population via `addSprites`), then `if (this.preload)
this._beginPreload(options.loaded)`.  The second component is the
preload action dispatched during construction, `none` when no preload
was begun. -/
def Sound.construct (o : Options) : Sound × Option PreloadAction :=
  let s : Sound :=
    { isLoaded := false
      isPlaying := false
      autoPlay := o.autoPlay
      singleInstance := o.singleInstance
      block := false
      preload := o.preload || o.autoPlay
      src := o.src
      srcBuffer := o.srcBuffer
      useXHR := o.useXHR
      volume := o.volume
      gainValue := o.volume
      loop := o.loop
      speed := o.speed
      sprites := o.sprites.foldl (fun acc p => setSpriteEntry acc p.1 p.2) []
      autoPlayOptions := if o.hasComplete then some { hasComplete := true } else none
      instances := []
      nextId := 0
      preloadCount := 0
      hasBuffer := false }
  if s.preload then
    let r := s.beginPreload o.hasLoaded
    (r.1, some r.2)
  else
    (s, none)

/-- `Sound#isPlayable` getter: `this.isLoaded && !!this._source &&
!!this._source.buffer` (the source node exists from construction until
`destroy`, which is out of scope here). -/
def Sound.isPlayable (s : Sound) : Bool :=
  s.isLoaded && s.hasBuffer

/-- `Sound#volume` setter: `this._volume = this._nodes.gain.gain.value =
volume`. -/
def Sound.setVolume (s : Sound) (v : ℚ) : Sound :=
  { s with volume := v, gainValue := v }

/-- Failure mode of `Sound.play`: the sprite lookup when an undefined
sprite name is referenced (`console.assert` logs, then reading
`sprite.start` off `undefined` throws a TypeError). -/
inductive PlayError
  | spriteNotFound (key : String)
deriving DecidableEq

/-- Result of `Sound.play`: a `Promise` (sound not yet loaded) or a
freshly started `SoundInstance` (sound loaded). -/
inductive PlayResult
  | promise
  | inst (i : SoundInstance)
deriving DecidableEq

/-- Sprite resolution at the top of `Sound.play` (before the load check):
if `options.sprite` is set, look the sprite up, copy its `start`, `end`
and `speed` over the ambient options and delete the `sprite` key. -/
def Sound.resolveSprite (s : Sound) (opts : PlayOptions) :
    Except PlayError PlayOptions :=
  match opts.sprite with
  | none => .ok opts
  | some key =>
    match s.sprites.lookup key with
    | none => .error (.spriteNotFound key)
    | some sp =>
      .ok { opts with
              start := sp.start
              end_ := some sp.end_
              speed := sp.speed
              sprite := none }

/-- `Sound._removeInstances`: destroy every active instance (destroying
also stops, without firing the stop event) and truncate the list. -/
def Sound.removeInstances (s : Sound) : Sound :=
  { s with instances := [] }

/-- `Sound.play(options)` translated clause by clause:
sprite resolution first; then, if not loaded, set `autoPlay`, record the
resolved options as `_autoPlayOptions`, call `_beginPreload` (with the
promise-settling callback) and return a Promise; if loaded, stop and
remove every instance when `singleInstance` is set, spawn a fresh
instance, append it to `_instances`, set `isPlaying`, and start the
instance with the resolved options.  The deprecated `offset` key for
`start` is not part of the typed `PlayOptions` interface and is omitted.
No clause of the method reads the `block` expando property. -/
def Sound.play (s : Sound) (opts0 : PlayOptions) :
    Except PlayError (PlayResult × Sound) :=
  match s.resolveSprite opts0 with
  | .error e => .error e
  | .ok opts =>
    if s.isLoaded = false then
      let s₁ := { s with autoPlay := true, autoPlayOptions := some opts }
      let r := s₁.beginPreload true
      .ok (.promise, r.1)
    else
      let s₁ := if s.singleInstance then s.removeInstances else s
      let newInst : SoundInstance :=
        { id := s₁.nextId
          start := opts.start
          end_ := opts.end_
          speed := opts.speed
          loop := opts.loop
          fadeIn := opts.fadeIn
          fadeOut := opts.fadeOut
          paused := false }
      let s₂ := { s₁ with
                    instances := s₁.instances ++ [newInst]
                    isPlaying := true
                    nextId := s₁.nextId + 1 }
      .ok (.inst newInst, s₂)

/-- `Sound._onComplete(instance)` (fired on an end or stop event):
`indexOf` + `splice` removes the first list entry with the given
reference identity, then `this.isPlaying = this._instances.length > 0`;
finally the instance is destroyed. -/
def Sound.onComplete (s : Sound) (instId : Nat) : Sound :=
  let rest := s.instances.eraseP (fun i => i.id == instId)
  { s with instances := rest, isPlaying := decide (0 < rest.length) }

/-- The reverse-index loop body of `Sound.stop`:
`for (let i = length - 1; i >= 0; i--) this._instances[i].stop()`, where
each `stop()` synchronously fires the stop event and hence
`_onComplete`, which splices that instance out of the array. -/
def Sound.stopInstancesFrom : Sound → Nat → Sound
  | s, 0 => s
  | s, i + 1 =>
    match s.instances[i]? with
    | some inst => Sound.stopInstancesFrom (s.onComplete inst.id) i
    | none => Sound.stopInstancesFrom s i

/-- `Sound.stop()`: on a non-playable sound, cancel any pending autoplay
request and return; otherwise clear `isPlaying` and stop every instance
in reverse spawn order. -/
def Sound.stop (s : Sound) : Sound :=
  if s.isPlayable = false then
    { s with autoPlay := false, autoPlayOptions := none }
  else
    let s₁ := { s with isPlaying := false }
    s₁.stopInstancesFrom s₁.instances.length

/-- `Sound.pause()`: set `paused = true` on every instance (reverse
order; no instance is removed), then `this.isPlaying = false`. -/
def Sound.pause (s : Sound) : Sound :=
  { s with
      instances := s.instances.map (fun i => { i with paused := true })
      isPlaying := false }

/-- `Sound.resume()`: clear `paused` on every instance, then
`this.isPlaying = this._instances.length > 0`. -/
def Sound.resume (s : Sound) : Sound :=
  let insts := s.instances.map (fun i => { i with paused := false })
  { s with instances := insts, isPlaying := decide (0 < insts.length) }

/-- Arguments delivered to a `LoadedCallback`: either `callback(err)` on
failure or `callback(null, this, instance)` on success, where
`instance` is the auto-played instance when `autoPlay` was set. -/
inductive LoadedCallbackArgs
  | error (e : String)
  | success (autoInst : Option SoundInstance)
deriving DecidableEq

/-- The callback body inside `Sound._decode` applied to the result
delivered by `SoundContext.decode`: on error, only `callback(err)` runs
and no field of the sound changes; on success, `isLoaded` is set, the
decoded buffer is installed, then `play(this._autoPlayOptions)` runs if
`autoPlay` is set, and `callback(null, this, instance)` fires.
Stored autoplay options never carry a sprite name (sprite resolution
happens before they are recorded), so the error branch of that inner
`play` is unreachable. -/
def Sound.decodeCallback (s : Sound) : Except String Unit →
    Sound × LoadedCallbackArgs
  | .error e => (s, .error e)
  | .ok _ =>
    let s₁ := { s with isLoaded := true, hasBuffer := true }
    if s₁.autoPlay then
      match s₁.play (s₁.autoPlayOptions.getD {}) with
      | .ok (.inst i, s₂) => (s₂, .success (some i))
      | .ok (.promise, s₂) => (s₂, .success none)
      | .error _ => (s₁, .success none)
    else
      (s₁, .success none)

/-- How the Promise returned by `Sound.play` on an unloaded sound settles,
as a function of the arguments its `_beginPreload` callback receives:
`err ? reject(err) : resolve(instance)`. -/
inductive SettleResult
  | rejected (e : String)
  | resolved (i : Option SoundInstance)
deriving DecidableEq

/-- The promise executor callback in the unloaded branch of `Sound.play`. -/
def playDeferredSettle : LoadedCallbackArgs → SettleResult
  | .error e => .rejected e
  | .success i => .resolved i

/-- `N` sequential `play()` calls with default options and no intervening
stop (as in the repository test suite). -/
def Sound.playN : Sound → Nat → Sound
  | s, 0 => s
  | s, n + 1 =>
    match s.play {} with
    | .ok (_, s₁) => s₁.playN n
    | .error _ => s

/-- Shared mixing context state (`SoundContext.ts`): `_muted`, `_volume`,
the master gain node value `_gainNode.gain.value`, and `_paused`. -/
structure SoundContext where
  muted : Bool
  volume : ℚ
  gainValue : ℚ
  paused : Bool
deriving DecidableEq

/-- `SoundContext` constructor defaults: `volume = 1`, `muted = false`,
`paused = false` (applied through the setters). -/
def SoundContext.init : SoundContext :=
  { muted := false, volume := 1, gainValue := 1, paused := false }

/-- `SoundContext#muted` setter: store the flag and force the master gain
to `0` when muting, back to the stored volume when unmuting. -/
def SoundContext.setMuted (c : SoundContext) (m : Bool) : SoundContext :=
  { c with muted := m, gainValue := if m then 0 else c.volume }

/-- `SoundContext#volume` setter: store the volume and update the master
gain only when not muted. -/
def SoundContext.setVolume (c : SoundContext) (v : ℚ) : SoundContext :=
  { c with volume := v, gainValue := if c.muted then c.gainValue else v }

/-- `SoundContext.decode`: `decodeAudioData` calls back with the buffer on
success, or with `new Error("Unable to decode file")` on failure; the
Boolean argument abstracts whether the byte payload is decodable. -/
def SoundContext.decode (decodable : Bool) : Except String Unit :=
  if decodable then .ok () else .error "Unable to decode file"

end PixiSound

namespace PixiSound

/-! Concrete states used as failing inputs and witnesses. -/

/-- A sound built from an in-memory buffer with `preload: true`, before
its decode callback has fired: one decode is outstanding. -/
def pendingSound : Sound :=
  (Sound.construct { srcBuffer := true, preload := true }).1

/-- The same sound after its decode callback delivered a buffer. -/
def loadedSound : Sound :=
  (pendingSound.decodeCallback (.ok ())).1

/-- A sound constructed with neither a source locator nor raw bytes. -/
def emptySound : Sound :=
  (Sound.construct {}).1

/-- The state of `loadedSound` after one `play()` call. -/
def playedSound : Sound :=
  match loadedSound.play {} with
  | .ok (_, s) => s
  | .error _ => loadedSound

/-- The state of `pendingSound` after a `play()` call issued before the
outstanding decode has completed. -/
def pendingPlayed : Sound :=
  match pendingSound.play {} with
  | .ok (_, s) => s
  | .error _ => pendingSound

/-- C1: the claim fails on the code.  `Sound.play` never reads the
`block` expando property: a loaded sound with `block = true` accumulates
four distinct active instances after four sequential `play()` calls with
no intervening stop, where the claim (and the repository test
`should play with blocking`, which expects `sound.instances.length` to
equal `1` after four calls) requires exactly one instance in total. -/
theorem c1_block_is_ignored :
    ({ loadedSound with block := true } : Sound).block = true ∧
    ({ loadedSound with block := true } : Sound).isLoaded = true ∧
    (({ loadedSound with block := true } : Sound).playN 4).instances.length = 4 := by
  decide

/-- C5: setting an asset volume to `v` and reading it back yields `v`
for `v ∈ [0, 1]`; muting the context forces the master gain to `0`
without altering the stored volume, and unmuting restores the gain to
the stored pre-mute volume exactly. -/
theorem c5_volume_roundtrip_mute_restore (s : Sound) (c : SoundContext) (v : ℚ)
    (_h0 : 0 ≤ v) (_h1 : v ≤ 1) :
    (s.setVolume v).volume = v ∧
    (c.setMuted true).gainValue = 0 ∧
    (c.setMuted true).volume = c.volume ∧
    ((c.setMuted true).setMuted false).gainValue = c.volume := by
  refine ⟨rfl, ?_, rfl, ?_⟩ <;> simp [SoundContext.setMuted]

theorem c5_volume_roundtrip_mute_restore_witness :
    (0 : ℚ) ≤ 1 / 2 ∧ (1 / 2 : ℚ) ≤ 1 ∧
    ((loadedSound.setVolume (1 / 2)).volume = 1 / 2 ∧
     (SoundContext.init.setMuted true).gainValue = 0 ∧
     (SoundContext.init.setMuted true).volume = SoundContext.init.volume ∧
     ((SoundContext.init.setMuted true).setMuted false).gainValue =
       SoundContext.init.volume) :=
  ⟨by norm_num, by norm_num,
   c5_volume_roundtrip_mute_restore loadedSound SoundContext.init (1 / 2)
     (by norm_num) (by norm_num)⟩

/-- C6: preloading an asset configured with neither a source locator nor
raw bytes fails synchronously with the configuration error callback
(`sound.src or sound.srcBuffer must be set`; `console.error` when no
callback was given), never invokes the byte-acquisition collaborator
(XHR or filesystem read), and leaves the sound unchanged. -/
theorem c6_preload_without_source_errors (s : Sound)
    (hsrc : s.src = none) (hbuf : s.srcBuffer = false) :
    (s.beginPreload true).2 = PreloadAction.callbackError ∧
    (s.beginPreload false).2 = PreloadAction.logError ∧
    ∀ cb, (s.beginPreload cb).2.acquiresBytes = false ∧
      (s.beginPreload cb).1 = s := by
  have hs : s.src.isSome = false := by simp [hsrc]
  refine ⟨?_, ?_, fun cb => ?_⟩
  · simp [Sound.beginPreload, Sound.preloadAction, hs, hbuf,
      PreloadAction.startsLoad]
  · simp [Sound.beginPreload, Sound.preloadAction, hs, hbuf,
      PreloadAction.startsLoad]
  · cases cb <;>
      simp [Sound.beginPreload, Sound.preloadAction, hs, hbuf,
        PreloadAction.startsLoad, PreloadAction.acquiresBytes]

theorem c6_preload_without_source_errors_witness :
    emptySound.src = none ∧ emptySound.srcBuffer = false ∧
    ((emptySound.beginPreload true).2 = PreloadAction.callbackError ∧
     (emptySound.beginPreload false).2 = PreloadAction.logError ∧
     ∀ cb, (emptySound.beginPreload cb).2.acquiresBytes = false ∧
       (emptySound.beginPreload cb).1 = emptySound) :=
  ⟨rfl, rfl, c6_preload_without_source_errors emptySound rfl rfl⟩

/-- C7: when a decode fails, the error object is passed to the load
callback as its error argument, the sound state is entirely unchanged
(in particular `isLoaded` stays `false` and the buffer is untouched),
and the context decode failure carries the `Unable to decode file`
error. -/
theorem c7_decode_failure_surfaced (s : Sound) (e : String)
    (hl : s.isLoaded = false) :
    (s.decodeCallback (.error e)).2 = LoadedCallbackArgs.error e ∧
    (s.decodeCallback (.error e)).1 = s ∧
    (s.decodeCallback (.error e)).1.isLoaded = false ∧
    (s.decodeCallback (.error e)).1.hasBuffer = s.hasBuffer ∧
    SoundContext.decode false = Except.error "Unable to decode file" :=
  ⟨rfl, rfl, hl, rfl, rfl⟩

theorem c7_decode_failure_surfaced_witness :
    pendingSound.isLoaded = false ∧
    ((pendingSound.decodeCallback (.error "Unable to decode file")).2 =
       LoadedCallbackArgs.error "Unable to decode file" ∧
     (pendingSound.decodeCallback (.error "Unable to decode file")).1 =
       pendingSound ∧
     (pendingSound.decodeCallback (.error "Unable to decode file")).1.isLoaded =
       false ∧
     (pendingSound.decodeCallback (.error "Unable to decode file")).1.hasBuffer =
       pendingSound.hasBuffer ∧
     SoundContext.decode false = Except.error "Unable to decode file") :=
  ⟨rfl, c7_decode_failure_surfaced pendingSound "Unable to decode file" rfl⟩

/-- C10: the constructor forces `preload` on whenever `autoPlay` is set
(`this.preload = options.preload || this.autoPlay`), and preloading is
begun during construction exactly when that forced flag holds. -/
theorem c10_autoplay_forces_preload (o : Options) :
    (Sound.construct o).1.preload = (o.preload || o.autoPlay) ∧
    ((Sound.construct o).2.isSome = (o.preload || o.autoPlay)) := by
  unfold Sound.construct Sound.beginPreload
  cases h : o.preload || o.autoPlay <;>
    simp [h, apply_ite Sound.preload]

end PixiSound

namespace PixiSound

/-- Writing a sprite under a key makes a later lookup of that key return
exactly the written data (JavaScript property-set followed by
property-get on the sprite table). -/
lemma lookup_setSpriteEntry (l : List (String × SoundSpriteData)) (key : String)
    (d : SoundSpriteData) :
    (setSpriteEntry l key d).lookup key = some d := by
  induction l with
  | nil => simp [setSpriteEntry, List.lookup]
  | cons p rest ih =>
    obtain ⟨k, v⟩ := p
    by_cases h : k = key
    · simp [setSpriteEntry, h, List.lookup]
    · have hk : (key == k) = false := by
        simp only [beq_eq_false_iff_ne, ne_eq]
        exact fun e => h e.symm
      simp [setSpriteEntry, h, List.lookup, hk, ih]

/-- Sprite data registered first under the duplicated name. -/
def spriteDataA : SoundSpriteData := { start := 0, end_ := 1, speed := none }

/-- Sprite data registered second under the same name. -/
def spriteDataB : SoundSpriteData := { start := 2, end_ := 3, speed := none }

/-- A sound whose sprite table already binds the name `a`. -/
def dupSpriteSound : Sound :=
  (Sound.construct { sprites := [("a", spriteDataA)] }).1

/-- C8: the claim fails on the code.  On a duplicate sprite name,
`addSprites` does fail the `console.assert` (which only logs), but then
unconditionally executes `this._sprites[source] = sprite`: the
previously registered sprite for `a` is replaced by the new one. -/
theorem c8_duplicate_sprite_counterexample :
    dupSpriteSound.sprites.lookup "a" = some spriteDataA ∧
    (dupSpriteSound.addSprites "a" spriteDataB).2 = true ∧
    (dupSpriteSound.addSprites "a" spriteDataB).1.sprites.lookup "a" =
      some spriteDataB ∧
    spriteDataB ≠ spriteDataA := by decide

/-- C8 amended: `addSprites` on a name already present in the sprite
table raises the usage assertion (logged, not thrown), and then still
replaces the previously registered sprite with the new data. -/
theorem c8_duplicate_sprite_amended (s : Sound) (key : String)
    (d : SoundSpriteData) (h : (s.sprites.lookup key).isSome = true) :
    (s.addSprites key d).2 = true ∧
    (s.addSprites key d).1.sprites.lookup key = some d :=
  ⟨by simp [Sound.addSprites, h], by simp [Sound.addSprites, lookup_setSpriteEntry]⟩

theorem c8_duplicate_sprite_amended_witness :
    (dupSpriteSound.sprites.lookup "a").isSome = true ∧
    ((dupSpriteSound.addSprites "a" spriteDataB).2 = true ∧
     (dupSpriteSound.addSprites "a" spriteDataB).1.sprites.lookup "a" =
       some spriteDataB) :=
  ⟨by decide, c8_duplicate_sprite_amended dupSpriteSound "a" spriteDataB (by decide)⟩

end PixiSound

namespace PixiSound

/-- `_beginPreload` never touches `autoPlay`. -/
lemma beginPreload_fst_autoPlay (s : Sound) (cb : Bool) :
    (s.beginPreload cb).1.autoPlay = s.autoPlay := by
  unfold Sound.beginPreload
  split <;> rfl

/-- `_beginPreload` never touches the recorded autoplay options. -/
lemma beginPreload_fst_autoPlayOptions (s : Sound) (cb : Bool) :
    (s.beginPreload cb).1.autoPlayOptions = s.autoPlayOptions := by
  unfold Sound.beginPreload
  split <;> rfl

/-- With a source locator or raw bytes configured, `_beginPreload`
always dispatches a load pipeline. -/
lemma preloadAction_startsLoad (s : Sound) (cb : Bool)
    (h : (s.src.isSome || s.srcBuffer) = true) :
    (s.preloadAction cb).startsLoad = true := by
  unfold Sound.preloadAction
  rcases hs : s.src.isSome with _ | _
  · rcases hb : s.srcBuffer with _ | _
    · rw [hs, hb] at h; simp at h
    · simp [hs, hb, PreloadAction.startsLoad]
  · rcases hx : s.useXHR with _ | _ <;> simp [hs, hx, PreloadAction.startsLoad]

/-- With a source configured, each `_beginPreload` call dispatches one
more load pipeline. -/
lemma beginPreload_fst_preloadCount (s : Sound) (cb : Bool)
    (h : (s.src.isSome || s.srcBuffer) = true) :
    (s.beginPreload cb).1.preloadCount = s.preloadCount + 1 := by
  unfold Sound.beginPreload
  rw [if_pos (preloadAction_startsLoad s cb h)]

/-- C2: the claim fails on the code.  `pendingSound` was constructed with
`preload: true`, so one decode of its buffer is already outstanding
(`preloadCount = 1`) and the sound is not yet loaded; a `play()` call in
this state nevertheless calls `_beginPreload` again, enqueuing a second
decode (`preloadCount = 2`) — `Sound.play` has no
`already preloading` guard, so the claimed `triggers preload only if a
preload is not already outstanding` is violated. -/
theorem c2_double_preload_counterexample :
    pendingSound.isLoaded = false ∧
    pendingSound.preloadCount = 1 ∧
    pendingPlayed.preloadCount = 2 := by decide

/-- C2 amended: `play()` on a not-yet-loaded asset records the resolved
options as the pending autoplay options, sets `autoPlay`, and
unconditionally calls `_beginPreload` — enqueuing a further decode even
when a preload is already outstanding; it returns one deferred result
whose settlement callback rejects with the delivered error exactly on
load failure and otherwise resolves with the spawned instance (the two
outcomes are mutually exclusive by construction). -/
theorem c2_play_before_load_amended (s : Sound) (opts : PlayOptions)
    (hl : s.isLoaded = false) (hspr : opts.sprite = none)
    (hsrc : (s.src.isSome || s.srcBuffer) = true) :
    (∃ s₁, s.play opts = .ok (.promise, s₁) ∧
       s₁.autoPlay = true ∧
       s₁.autoPlayOptions = some opts ∧
       s₁.preloadCount = s.preloadCount + 1) ∧
    (∀ e, playDeferredSettle (.error e) = .rejected e) ∧
    (∀ i, playDeferredSettle (.success i) = .resolved i) ∧
    (∀ e i, SettleResult.rejected e ≠ SettleResult.resolved i) := by
  refine ⟨?_, fun e => rfl, fun i => rfl, fun e i => by simp⟩
  have hres : s.resolveSprite opts = .ok opts := by
    simp [Sound.resolveSprite, hspr]
  unfold Sound.play
  rw [hres, hl]
  simp only [if_pos rfl]
  refine ⟨_, rfl, ?_, ?_, ?_⟩
  · rw [beginPreload_fst_autoPlay]
  · rw [beginPreload_fst_autoPlayOptions]
  · rw [beginPreload_fst_preloadCount _ _ (by simpa using hsrc)]

theorem c2_play_before_load_amended_witness :
    pendingSound.isLoaded = false ∧
    ({} : PlayOptions).sprite = none ∧
    (pendingSound.src.isSome || pendingSound.srcBuffer) = true ∧
    ((∃ s₁, pendingSound.play {} = .ok (.promise, s₁) ∧
        s₁.autoPlay = true ∧
        s₁.autoPlayOptions = some ({} : PlayOptions) ∧
        s₁.preloadCount = pendingSound.preloadCount + 1) ∧
     (∀ e, playDeferredSettle (.error e) = .rejected e) ∧
     (∀ i, playDeferredSettle (.success i) = .resolved i) ∧
     (∀ e i, SettleResult.rejected e ≠ SettleResult.resolved i)) :=
  ⟨rfl, rfl, rfl, c2_play_before_load_amended pendingSound {} rfl rfl rfl⟩

end PixiSound

namespace PixiSound

/-- One `play()` call on a loaded single-instance sound removes every
previously active instance and leaves exactly the new instance active;
the loaded and single-instance flags persist. -/
lemma play_loaded_single_step (s : Sound) (opts : PlayOptions)
    (hl : s.isLoaded = true) (hsi : s.singleInstance = true)
    (hspr : opts.sprite = none) :
    ∃ i s₁, s.play opts = .ok (.inst i, s₁) ∧ s₁.instances = [i] ∧
      s₁.isLoaded = true ∧ s₁.singleInstance = true := by
  have hres : s.resolveSprite opts = .ok opts := by
    simp [Sound.resolveSprite, hspr]
  unfold Sound.play
  rw [hres, hl, hsi]
  simp only [Bool.true_eq_false, if_false, if_true, Sound.removeInstances]
  exact ⟨_, _, rfl, rfl, hl, hsi⟩

/-- Iterating `play()` on a loaded single-instance sound keeps the active
set at exactly one instance. -/
lemma playN_single (n : Nat) :
    ∀ s : Sound, s.isLoaded = true → s.singleInstance = true → 1 ≤ n →
      (s.playN n).instances.length = 1 ∧ (s.playN n).isLoaded = true ∧
        (s.playN n).singleInstance = true := by
  induction n with
  | zero => intro s _ _ h; omega
  | succ k ih =>
    intro s hl hsi _
    obtain ⟨i, s₁, hp, hi, hl₁, hsi₁⟩ := play_loaded_single_step s {} hl hsi rfl
    have hstep : s.playN (k + 1) = s₁.playN k := by
      show (match s.play {} with
        | .ok (_, s₂) => s₂.playN k
        | .error _ => s) = s₁.playN k
      rw [hp]
    rw [hstep]
    cases k with
    | zero =>
      refine ⟨?_, hl₁, hsi₁⟩
      show s₁.instances.length = 1
      rw [hi]
      rfl
    | succ m => exact ih s₁ hl₁ hsi₁ (by omega)

/-- C3: on a loaded asset with `singleInstance = true`, every `play()`
call first stops and removes all currently active instances and then
spawns the new one, so the post-state active set is exactly the new
instance; consequently after `N ≥ 1` sequential `play()` calls with no
intervening stop exactly one instance is active, and the active set
never exceeds one live instance. -/
theorem c3_singleInstance_one_active (s : Sound)
    (hl : s.isLoaded = true) (hsi : s.singleInstance = true) :
    (∀ opts, opts.sprite = none →
       ∃ i s₁, s.play opts = .ok (.inst i, s₁) ∧ s₁.instances = [i]) ∧
    (∀ n, 1 ≤ n → (s.playN n).instances.length = 1) := by
  constructor
  · intro opts hspr
    obtain ⟨i, s₁, hp, hi, _, _⟩ := play_loaded_single_step s opts hl hsi hspr
    exact ⟨i, s₁, hp, hi⟩
  · intro n hn
    exact (playN_single n s hl hsi hn).1

/-- A loaded sound with the single-instance policy enabled. -/
def loadedSingleSound : Sound :=
  { loadedSound with singleInstance := true }

theorem c3_singleInstance_one_active_witness :
    loadedSingleSound.isLoaded = true ∧
    loadedSingleSound.singleInstance = true ∧
    ((∀ opts, opts.sprite = none →
        ∃ i s₁, loadedSingleSound.play opts = .ok (.inst i, s₁) ∧
          s₁.instances = [i]) ∧
     (∀ n, 1 ≤ n → (loadedSingleSound.playN n).instances.length = 1)) :=
  ⟨by decide, rfl, c3_singleInstance_one_active loadedSingleSound (by decide) rfl⟩

/-- C9: playing a named sprite on a loaded asset spawns an instance whose
start, end and speed are exactly the values stored in the sprite table,
regardless of the ambient `start`, `end` and `speed` options passed to
the same call; the spawned instance is the one appended to the active
set. -/
theorem c9_sprite_overrides_options (s : Sound) (opts : PlayOptions) (x : String)
    (d : SoundSpriteData) (hl : s.isLoaded = true)
    (hx : s.sprites.lookup x = some d) (hspr : opts.sprite = some x) :
    ∃ i s₁, s.play opts = .ok (.inst i, s₁) ∧
      i.start = d.start ∧ i.end_ = some d.end_ ∧ i.speed = d.speed ∧
      s₁.instances.getLast? = some i := by
  have hres : s.resolveSprite opts =
      .ok { opts with start := d.start, end_ := some d.end_,
                      speed := d.speed, sprite := none } := by
    simp [Sound.resolveSprite, hspr, hx]
  unfold Sound.play
  rw [hres, hl]
  simp only [Bool.true_eq_false, if_false]
  rcases hsi : s.singleInstance with _ | _ <;>
    simp only [hsi, if_false, if_true, Sound.removeInstances] <;>
    exact ⟨_, _, rfl, rfl, rfl, rfl, by simp⟩

/-- The sprite registered under the name `x` in the witness sound. -/
def spriteXData : SoundSpriteData := { start := 1, end_ := 2, speed := some 2 }

/-- Constructor options carrying the witness sprite. -/
def spriteSoundOpts : Options :=
  { srcBuffer := true, preload := true, sprites := [("x", spriteXData)] }

/-- A loaded sound carrying the sprite `x = { start: 1, end: 2, speed: 2 }`. -/
def spriteSound : Sound :=
  ((Sound.construct spriteSoundOpts).1.decodeCallback (.ok ())).1

theorem c9_sprite_overrides_options_witness :
    spriteSound.isLoaded = true ∧
    spriteSound.sprites.lookup "x" = some spriteXData ∧
    ({ sprite := some "x", start := 5, end_ := some 6, speed := some 7 } :
        PlayOptions).sprite = some "x" ∧
    (∃ i s₁, spriteSound.play
        { sprite := some "x", start := 5, end_ := some 6, speed := some 7 } =
          .ok (.inst i, s₁) ∧
      i.start = spriteXData.start ∧ i.end_ = some spriteXData.end_ ∧
      i.speed = spriteXData.speed ∧
      s₁.instances.getLast? = some i) :=
  ⟨by decide, by decide, rfl,
   c9_sprite_overrides_options spriteSound
     { sprite := some "x", start := 5, end_ := some 6, speed := some 7 }
     "x" spriteXData (by decide) (by decide) rfl⟩

end PixiSound

namespace PixiSound

/-- Splicing out the last element of the active list by its identity,
when no earlier element shares that identity, leaves the prefix. -/
lemma eraseP_id_append (l : List SoundInstance) (a : SoundInstance)
    (h : ∀ x ∈ l, x.id ≠ a.id) :
    (l ++ [a]).eraseP (fun b => b.id == a.id) = l := by
  induction l with
  | nil => simp [List.eraseP]
  | cons x xs ih =>
    have hx : (x.id == a.id) = false := by
      simpa using h x (List.mem_cons_self x xs)
    have hrest : ∀ y ∈ xs, y.id ≠ a.id := fun y hy => h y (List.mem_cons_of_mem x hy)
    simp [List.eraseP_cons, hx, ih hrest]

/-- The reverse-index stop loop of `Sound.stop` empties the active set,
and the final `_onComplete` leaves `isPlaying = false` whenever at least
one instance was stopped. -/
lemma stopInstancesFrom_clears (n : Nat) :
    ∀ s : Sound, s.instances.length = n →
      (s.instances.map SoundInstance.id).Nodup →
      (s.stopInstancesFrom n).instances = [] ∧
      (s.stopInstancesFrom n).isPlaying = (if n = 0 then s.isPlaying else false) := by
  induction n with
  | zero =>
    intro s hlen _
    have : s.instances = [] := List.length_eq_zero.mp hlen
    exact ⟨this, rfl⟩
  | succ i ih =>
    intro s hlen hnd
    have hne : s.instances ≠ [] := by
      intro h
      rw [h] at hlen
      simp at hlen
    have hsplit : s.instances = s.instances.dropLast ++ [s.instances.getLast hne] :=
      (List.dropLast_append_getLast hne).symm
    set l := s.instances.dropLast with hl
    set a := s.instances.getLast hne with ha
    have hll : l.length = i := by
      have := congrArg List.length hsplit
      simp at this
      omega
    have hget : s.instances[i]? = some a := by
      rw [hsplit, ← hll]
      exact List.getElem?_concat_length l a
    have hid : ∀ x ∈ l, x.id ≠ a.id := by
      intro x hx hxa
      rw [hsplit] at hnd
      rw [List.map_append] at hnd
      rcases List.nodup_append.mp hnd with ⟨_, _, hdisj⟩
      exact hdisj (List.mem_map_of_mem SoundInstance.id hx) (by simp [hxa])
    have herase : (s.onComplete a.id).instances = l := by
      show (s.instances.eraseP (fun b => b.id == a.id)) = l
      rw [hsplit]
      exact eraseP_id_append l a hid
    have hstep : s.stopInstancesFrom (i + 1) =
        (s.onComplete a.id).stopInstancesFrom i := by
      show (match s.instances[i]? with
        | some inst => (s.onComplete inst.id).stopInstancesFrom i
        | none => s.stopInstancesFrom i) = (s.onComplete a.id).stopInstancesFrom i
      rw [hget]
    have hnd' : ((s.onComplete a.id).instances.map SoundInstance.id).Nodup := by
      rw [herase]
      rw [hsplit, List.map_append] at hnd
      exact (List.nodup_append.mp hnd).1
    have hlen' : (s.onComplete a.id).instances.length = i := by
      rw [herase]; exact hll
    obtain ⟨h1, h2⟩ := ih (s.onComplete a.id) hlen' hnd'
    rw [hstep]
    refine ⟨h1, ?_⟩
    rw [h2]
    by_cases hi : i = 0
    · subst hi
      have : (s.onComplete a.id).isPlaying = false := by
        show decide (0 < (s.instances.eraseP (fun b => b.id == a.id)).length) = false
        rw [hsplit, eraseP_id_append l a hid]
        have : l.length = 0 := hll
        simp [this]
      simp [this]
    · simp [hi]

/-- C4: the claim fails on the code.  `playedSound` has exactly one
active instance; the public operation `pause()` sets `isPlaying` to
`false` while leaving that instance in the active set, so after `pause`
the flag is `false` although the active set is non-empty — `isPlaying`
is not equivalent to non-emptiness of the active set after every public
operation. -/
theorem c4_pause_counterexample :
    playedSound.pause.isPlaying = false ∧
    playedSound.pause.instances.length = 1 ∧
    ¬ ((playedSound.pause.isPlaying = true) ↔ playedSound.pause.instances ≠ []) := by
  decide

/-- C4 amended: `isPlaying` is equivalent to non-emptiness of the active
set after `play` (loaded path), after instance completion or stop
reaping (`_onComplete`), and after `resume`; `stop` on a playable asset
with distinct live instances empties the active set and clears the
flag, while `stop` on a non-playable asset only cancels the pending
autoplay request; `pause`, however, forces `isPlaying = false` while
keeping every (now paused) instance in the active set. -/
theorem c4_isPlaying_amended :
    (∀ (s : Sound) (opts : PlayOptions) (i : SoundInstance) (s₁ : Sound),
       s.play opts = Except.ok (PlayResult.inst i, s₁) →
       s₁.isPlaying = true ∧ s₁.instances ≠ []) ∧
    (∀ (s : Sound) (instId : Nat),
       ((s.onComplete instId).isPlaying = true ↔
         (s.onComplete instId).instances ≠ [])) ∧
    (∀ s : Sound, (s.resume.isPlaying = true ↔ s.resume.instances ≠ [])) ∧
    (∀ s : Sound, s.isPlayable = true →
       (s.instances.map SoundInstance.id).Nodup →
       s.stop.instances = [] ∧ s.stop.isPlaying = false) ∧
    (∀ s : Sound, s.isPlayable = false →
       s.stop = { s with autoPlay := false, autoPlayOptions := none }) ∧
    (∀ s : Sound, s.pause.isPlaying = false ∧
       s.pause.instances.length = s.instances.length) := by
  refine ⟨?_, ?_, ?_, ?_, ?_, ?_⟩
  · intro s opts i s₁ h
    unfold Sound.play at h
    cases hres : s.resolveSprite opts with
    | error e =>
      rw [hres] at h
      dsimp only at h
      exact absurd h (by simp)
    | ok o =>
      rw [hres] at h
      dsimp only at h
      by_cases hl : s.isLoaded = false
      · rw [if_pos hl] at h
        simp at h
      · rw [if_neg hl] at h
        simp only [Except.ok.injEq, Prod.mk.injEq] at h
        obtain ⟨_, hs⟩ := h
        subst hs
        constructor
        · rfl
        · simp
  · intro s instId
    show decide (0 < (s.instances.eraseP (fun b => b.id == instId)).length) = true ↔
      (s.instances.eraseP (fun b => b.id == instId)) ≠ []
    rw [decide_eq_true_iff, List.length_pos]
  · intro s
    show decide
        (0 < (s.instances.map
          (fun i : SoundInstance => ({ i with paused := false } : SoundInstance))).length) = true ↔
      (s.instances.map
          (fun i : SoundInstance => ({ i with paused := false } : SoundInstance))) ≠ []
    rw [decide_eq_true_iff, List.length_pos]
  · intro s hp hnd
    unfold Sound.stop
    rw [hp]
    simp only [Bool.true_eq_false, if_false]
    have := stopInstancesFrom_clears
      ({ s with isPlaying := false } : Sound).instances.length
      { s with isPlaying := false } rfl hnd
    obtain ⟨h1, h2⟩ := this
    refine ⟨h1, ?_⟩
    rw [h2]
    by_cases hn : ({ s with isPlaying := false } : Sound).instances.length = 0
    · simp [hn]
    · simp [hn]
  · intro s hp
    unfold Sound.stop
    rw [hp]
    rfl
  · intro s
    exact ⟨rfl, by simp [Sound.pause]⟩

theorem c4_isPlaying_amended_witness :
    playedSound.isPlayable = true ∧
    (playedSound.instances.map SoundInstance.id).Nodup ∧
    (playedSound.stop.instances = [] ∧ playedSound.stop.isPlaying = false) :=
  ⟨by decide, by decide, c4_isPlaying_amended.2.2.2.1 playedSound (by decide) (by decide)⟩

end PixiSound
